import Mathlib

/-!
Verification development for `gi/docstring.py`: a documentation-string
generator for GObject-Introspection callables.  The module holds a
process-wide generator slot (set/get/dispatch) and a default formatter
that maps GI callable metadata to a signature string.

The shallow embedding below translates the Python module directly:
the introspection descriptors (callable, argument, type, interface)
become structures whose fields model the accessor methods the Python
code calls; the Python `set` of indices becomes a `List Int` used only
through membership; the mutable module-level slot becomes an explicit
`Registry` value threaded through `set`/`get`/`generate`.
-/

namespace GiDocstring

/-- `Direction` enumeration from `gi._gi`.  The Python code tests
membership in `(Direction.IN, Direction.INOUT)` and
`(Direction.OUT, Direction.INOUT)` with no else-branch, so we include
an `OTHER` constructor modelling any direction value outside the three
documented ones. -/
inductive Direction where
  | IN
  | OUT
  | INOUT
  | OTHER
deriving DecidableEq

/-- `TypeTag` enumeration from `gi._gi`.  `UNKNOWN` models a tag value
absent from the `_type_tag_to_py_type` dict (the Python lookup is
`dict.get(tag, None)`, total over arbitrary tags). -/
inductive TypeTag where
  | BOOLEAN
  | INT8
  | UINT8
  | INT16
  | UINT16
  | INT32
  | UINT32
  | INT64
  | UINT64
  | FLOAT
  | DOUBLE
  | GLIST
  | GSLIST
  | ARRAY
  | GHASH
  | UTF8
  | FILENAME
  | UNICHAR
  | INTERFACE
  | GTYPE
  | ERROR
  | VOID
  | UNKNOWN
deriving DecidableEq

/-- Interface descriptor: the part of a GI interface info the formatter
reads (`get_name`, `get_namespace`).  An absent name is the empty
string (Python tests `if not info_name`). -/
structure InterfaceInfo where
  get_name : String
  get_namespace : String
deriving DecidableEq

/-- Type descriptor: the accessors of a GI type info the formatter
reads.  `get_tag_as_string` is the collaborator-supplied raw string
representation of the tag; `get_interface` is only meaningful when the
tag is `INTERFACE`; `get_array_length` is an index or the sentinel
`-1`. -/
structure GIType where
  get_tag : TypeTag
  get_tag_as_string : String
  get_interface : InterfaceInfo
  get_array_length : Int
deriving DecidableEq

/-- Argument descriptor: the accessors of a GI argument info the
formatter reads.  `get_destroy` and `get_closure` are companion
indices or the sentinel `-1`. -/
structure GIArg where
  get_name : String
  get_direction : Direction
  get_type : GIType
  may_be_null : Bool
  is_optional : Bool
  get_destroy : Int
  get_closure : Int
deriving DecidableEq

/-- Which `isinstance` branch of the formatter a callable descriptor
takes: `VFuncInfo`, `FunctionInfo`, or neither. -/
inductive CallableKind where
  | VFuncInfo
  | FunctionInfo
  | OtherInfo
deriving DecidableEq

/-- Callable descriptor: name, kind discriminant, the two
`FunctionInfo` predicates and the ordered argument sequence. -/
structure GICallableInfo where
  get_name : String
  kind : CallableKind
  is_method : Bool
  is_constructor : Bool
  get_arguments : List GIArg

/-- A Python type object stored as a value of the
`_type_tag_to_py_type` dict; only its `__name__` is read. -/
inductive PyType where
  | bool
  | int
  | float
  | list
  | dict
  | str
deriving DecidableEq

/-- The `__name__` attribute of each Python type object in the table. -/
def PyType.__name__ : PyType → String
  | .bool => "bool"
  | .int => "int"
  | .float => "float"
  | .list => "list"
  | .dict => "dict"
  | .str => "str"

/-- `split_function_info_args(info)`: one pass appending to `in_args`
when the direction is in `(IN, INOUT)` and to `out_args` when it is in
`(OUT, INOUT)`; equivalently two order-preserving filters. -/
def split_function_info_args (info : GICallableInfo) : List GIArg × List GIArg :=
  (info.get_arguments.filter
      (fun arg => decide (arg.get_direction = Direction.IN ∨
                          arg.get_direction = Direction.INOUT)),
   info.get_arguments.filter
      (fun arg => decide (arg.get_direction = Direction.OUT ∨
                          arg.get_direction = Direction.INOUT)))

/-- The module-level dict `_type_tag_to_py_type`, with `dict.get`'s
default folded in: tags the dict maps to `None` and tags absent from
the dict both yield `none`. -/
def _type_tag_to_py_type : TypeTag → Option PyType
  | .BOOLEAN => some .bool
  | .INT8 => some .int
  | .UINT8 => some .int
  | .INT16 => some .int
  | .UINT16 => some .int
  | .INT32 => some .int
  | .UINT32 => some .int
  | .INT64 => some .int
  | .UINT64 => some .int
  | .FLOAT => some .float
  | .DOUBLE => some .float
  | .GLIST => some .list
  | .GSLIST => some .list
  | .ARRAY => some .list
  | .GHASH => some .dict
  | .UTF8 => some .str
  | .FILENAME => some .str
  | .UNICHAR => some .str
  | .INTERFACE => none
  | .GTYPE => none
  | .ERROR => none
  | .VOID => none
  | .UNKNOWN => none

/-- `_get_pytype_hint(gi_type)`: mapped name if the table yields a
type, else the `Namespace.Name` resolution for the interface tag
(falling back to the raw tag string when the interface name is empty),
else the raw tag string. -/
def _get_pytype_hint (gi_type : GIType) : String :=
  let type_tag := gi_type.get_tag
  match _type_tag_to_py_type type_tag with
  | some py_type => py_type.__name__
  | none =>
    if type_tag = TypeTag.INTERFACE then
      let iface := gi_type.get_interface
      let info_name := iface.get_name
      if info_name = "" then
        gi_type.get_tag_as_string
      else
        iface.get_namespace ++ "." ++ info_name
    else
      gi_type.get_tag_as_string

/-- The seeding of `in_args_strs` in
`_generate_callable_info_function_signature`: `['self']` for a
`VFuncInfo`; for a `FunctionInfo`, `['self']` when `is_method()`,
else `['cls']` when `is_constructor()`, else `[]`; `[]` otherwise. -/
def seed_in_args_strs (info : GICallableInfo) : List String :=
  match info.kind with
  | .VFuncInfo => ["self"]
  | .FunctionInfo =>
      if info.is_method then ["self"]
      else if info.is_constructor then ["cls"]
      else []
  | .OtherInfo => []

/-- The `ignore_indices` set built before the formatting loop: every
in-argument's `get_destroy()` and its type's `get_array_length()`.
Modelled as a list used only through membership. -/
def ignore_indices (in_args : List GIArg) : List Int :=
  in_args.map (fun arg => arg.get_destroy) ++
  in_args.map (fun arg => arg.get_type.get_array_length)

/-- The `user_data_indices` set built before the formatting loop:
every in-argument's `get_closure()`. -/
def user_data_indices (in_args : List GIArg) : List Int :=
  in_args.map (fun arg => arg.get_closure)

/-- The body of the in-argument loop for a non-ignored argument at
position `i`: name, then `:hint` unless the hint is `"void"`, then
`=None` when nullable or `i` is a closure companion, else
`=<optional>` when optional. -/
def format_in_arg (ud : List Int) (i : Nat) (arg : GIArg) : String :=
  let argstr := arg.get_name
  let hint := _get_pytype_hint arg.get_type
  let argstr := if hint ≠ "void" then argstr ++ ":" ++ hint else argstr
  if arg.may_be_null ∨ (i : Int) ∈ ud then argstr ++ "=None"
  else if arg.is_optional then argstr ++ "=<optional>"
  else argstr

/-- The complete `in_args_strs` list: the seeded leading parameter
followed by the loop over `enumerate(in_args)`, skipping positions in
`ignore_indices`. -/
def in_args_strs (info : GICallableInfo) : List String :=
  let in_args := (split_function_info_args info).1
  let ign := ignore_indices in_args
  let ud := user_data_indices in_args
  seed_in_args_strs info ++
    in_args.enum.filterMap (fun p =>
      if (p.1 : Int) ∈ ign then none else some (format_in_arg ud p.1 p.2))

/-- One out-argument's rendering: `name:hint`, the hint
unconditionally. -/
def format_out_arg (arg : GIArg) : String :=
  arg.get_name ++ ":" ++ _get_pytype_hint arg.get_type

/-- `_generate_callable_info_function_signature(info)`: the default
doc string generator. -/
def _generate_callable_info_function_signature (info : GICallableInfo) : String :=
  let out_args := (split_function_info_args info).2
  let in_args_str := String.intercalate ", " (in_args_strs info)
  if out_args ≠ [] then
    let out_args_str := String.intercalate ", " (out_args.map format_out_arg)
    info.get_name ++ "(" ++ in_args_str ++ ") -> " ++ out_args_str
  else
    info.get_name ++ "(" ++ in_args_str ++ ")"

/-- The module-level slot `_generate_doc_string_func`, made explicit
as a state value. -/
structure Registry where
  _generate_doc_string_func : Option (GICallableInfo → String)

/-- The slot as first assigned at module top: `None`. -/
def module_initial_registry : Registry := ⟨none⟩

/-- `set_doc_string_generator(func)`: unconditional assignment to the
slot. -/
def set_doc_string_generator (func : GICallableInfo → String) (r : Registry) : Registry :=
  { r with _generate_doc_string_func := some func }

/-- `get_doc_string_generator()`: read the slot. -/
def get_doc_string_generator (r : Registry) : Option (GICallableInfo → String) :=
  r._generate_doc_string_func

/-- `generate_doc_string(info)`: call the slot's function on `info`;
`none` models the `TypeError` raised when the slot is unset. -/
def generate_doc_string (r : Registry) (info : GICallableInfo) : Option String :=
  match r._generate_doc_string_func with
  | some f => some (f info)
  | none => none

/-- The registry state after the module's load-time
`set_doc_string_generator(_generate_callable_info_function_signature)`. -/
def module_loaded_registry : Registry :=
  set_doc_string_generator _generate_callable_info_function_signature module_initial_registry

/-! Concrete descriptors used by the witnesses below. -/

/-- A dummy interface descriptor for non-interface types. -/
def no_iface : InterfaceInfo := ⟨"", ""⟩

/-- An `INT32`-tagged type descriptor with no array length. -/
def int_type : GIType := ⟨.INT32, "int32", no_iface, -1⟩

/-- A `UTF8`-tagged type descriptor. -/
def str_type : GIType := ⟨.UTF8, "utf8", no_iface, -1⟩

/-- A `BOOLEAN`-tagged type descriptor. -/
def bool_type : GIType := ⟨.BOOLEAN, "gboolean", no_iface, -1⟩

/-- A `VOID`-tagged type descriptor. -/
def void_type : GIType := ⟨.VOID, "void", no_iface, -1⟩

/-- A `GTYPE`-tagged type descriptor (unmapped in the table). -/
def gtype_type : GIType := ⟨.GTYPE, "GType", no_iface, -1⟩

/-- An `INTERFACE`-tagged type descriptor for `Gtk.Widget`. -/
def widget_type : GIType := ⟨.INTERFACE, "interface", ⟨"Widget", "Gtk"⟩, -1⟩

/-- An `INTERFACE`-tagged type descriptor whose interface name is
empty. -/
def anon_iface_type : GIType := ⟨.INTERFACE, "interface", ⟨"", "Gtk"⟩, -1⟩

/-- IN argument `x : int`, no companions, no markers. -/
def x_arg : GIArg := ⟨"x", .IN, int_type, false, false, -1, -1⟩

/-- IN argument `y : str`, nullable. -/
def y_arg : GIArg := ⟨"y", .IN, str_type, true, false, -1, -1⟩

/-- OUT argument `result : bool`. -/
def result_arg : GIArg := ⟨"result", .OUT, bool_type, false, false, -1, -1⟩

/-- IN argument `data` whose closure companion index is 1. -/
def data_arg : GIArg := ⟨"data", .IN, void_type, false, false, -1, 1⟩

/-- IN argument `user_data`, not itself nullable or optional. -/
def user_data_arg : GIArg := ⟨"user_data", .IN, void_type, false, false, -1, -1⟩

/-- IN argument `cb` whose destroy-notify companion index is 1. -/
def cb_arg : GIArg := ⟨"cb", .IN, void_type, false, false, 1, -1⟩

/-- Plain function `foo(x:int)`. -/
def foo_info : GICallableInfo := ⟨"foo", .FunctionInfo, false, false, [x_arg]⟩

/-- Method `name(self, y:str=None)`. -/
def meth_info : GICallableInfo := ⟨"name", .FunctionInfo, true, false, [y_arg]⟩

/-- Function `name() -> result:bool`. -/
def outonly_info : GICallableInfo := ⟨"name", .FunctionInfo, false, false, [result_arg]⟩

/-- Function whose second in-argument is a closure companion of the
first. -/
def closure_info : GICallableInfo :=
  ⟨"connect", .FunctionInfo, false, false, [data_arg, user_data_arg]⟩

/-- Function whose second in-argument is a destroy-notify companion of
the first. -/
def destroy_info : GICallableInfo :=
  ⟨"watch", .FunctionInfo, false, false, [cb_arg, user_data_arg]⟩

/-- INOUT argument `buf : int`. -/
def io_arg : GIArg := ⟨"buf", .INOUT, int_type, false, false, -1, -1⟩

/-- Function with a single INOUT argument. -/
def inout_info : GICallableInfo := ⟨"rw", .FunctionInfo, false, false, [io_arg]⟩

/-- OUT argument equal to `result_arg` except for its destroy-notify
companion index. -/
def result_arg2 : GIArg := ⟨"result", .OUT, bool_type, false, false, 0, -1⟩

/-- `outonly_info` with `result_arg`'s destroy index changed: an
OUT-only companion-index variation. -/
def outonly_info2 : GICallableInfo := ⟨"name", .FunctionInfo, false, false, [result_arg2]⟩

/-- Type-hint resolution as the spec states it: the fixed
primitive-tag table, the `Namespace.Name` interface case with its
empty-name fallback, and the raw tag string for every other tag.
Written from the spec's words, for comparison with
`_get_pytype_hint`. -/
def spec_pytype_hint (t : GIType) : String :=
  match t.get_tag with
  | .BOOLEAN => "bool"
  | .INT8 | .UINT8 | .INT16 | .UINT16
  | .INT32 | .UINT32 | .INT64 | .UINT64 => "int"
  | .FLOAT | .DOUBLE => "float"
  | .GLIST | .GSLIST | .ARRAY => "list"
  | .GHASH => "dict"
  | .UTF8 | .FILENAME | .UNICHAR => "str"
  | .INTERFACE =>
      if t.get_interface.get_name = "" then t.get_tag_as_string
      else t.get_interface.get_namespace ++ "." ++ t.get_interface.get_name
  | .GTYPE | .ERROR | .VOID | .UNKNOWN => t.get_tag_as_string

/-- The type-descriptor fields `_get_pytype_hint` reads: tag, raw tag
string, and nested interface descriptor (not the array-length
index). -/
def hint_fields_eq (t u : GIType) : Prop :=
  t.get_tag = u.get_tag ∧ t.get_tag_as_string = u.get_tag_as_string ∧
    t.get_interface = u.get_interface

/-- Two argument descriptors that may differ solely in the
destroy-notify or closure companion index and the array-length
companion index, and only when the direction is `OUT`: all other
fields agree, and a non-`OUT` argument is fully equal. -/
def out_companion_variant (a b : GIArg) : Prop :=
  a.get_name = b.get_name ∧ a.get_direction = b.get_direction ∧
  a.may_be_null = b.may_be_null ∧ a.is_optional = b.is_optional ∧
  hint_fields_eq a.get_type b.get_type ∧
  (a.get_direction ≠ Direction.OUT → a = b)

instance (t u : GIType) : Decidable (hint_fields_eq t u) := by
  unfold hint_fields_eq; infer_instance

instance (a b : GIArg) : Decidable (out_companion_variant a b) := by
  unfold out_companion_variant; infer_instance

/-- C4: `_get_pytype_hint` returns the mapped scripting-type name for
every primitive tag, `Namespace.Name` for an interface tag with a
non-empty interface name, the raw tag string for an interface tag with
an empty name, and the raw tag string for every other tag (gtype,
error, void, unrecognized) — i.e. it coincides with the spec's table
`spec_pytype_hint`. -/
theorem get_pytype_hint_matches_spec_table (t : GIType) :
    _get_pytype_hint t = spec_pytype_hint t := by
  cases h : t.get_tag <;>
    simp [_get_pytype_hint, spec_pytype_hint, _type_tag_to_py_type, h, PyType.__name__]

/-- C8: after `set_doc_string_generator fn` the getter returns `fn`
and `generate_doc_string d` returns exactly `fn d`, for any prior
registry state and without touching `fn`; and the module's load-time
registration leaves the slot holding the default formatter
`_generate_callable_info_function_signature`. -/
theorem registry_set_get_generate (fn : GICallableInfo → String) (r : Registry)
    (info : GICallableInfo) :
    get_doc_string_generator (set_doc_string_generator fn r) = some fn ∧
    generate_doc_string (set_doc_string_generator fn r) info = some (fn info) ∧
    get_doc_string_generator module_loaded_registry =
      some _generate_callable_info_function_signature :=
  ⟨rfl, rfl, rfl⟩

/-- C7: `_get_pytype_hint` always produces a string, and degrades to
the raw tag string both for a tag the table leaves unmapped (other
than the interface tag) and for an interface tag whose interface name
is empty — it never fails on those inputs. -/
theorem get_pytype_hint_total_fallback (t : GIType) :
    (∃ s : String, _get_pytype_hint t = s) ∧
    (_type_tag_to_py_type t.get_tag = none → t.get_tag ≠ TypeTag.INTERFACE →
      _get_pytype_hint t = t.get_tag_as_string) ∧
    (t.get_tag = TypeTag.INTERFACE → t.get_interface.get_name = "" →
      _get_pytype_hint t = t.get_tag_as_string) := by
  refine ⟨⟨_, rfl⟩, fun h1 h2 => ?_, fun h1 h2 => ?_⟩
  · simp [_get_pytype_hint, h1, h2]
  · simp [_get_pytype_hint, h1, h2, _type_tag_to_py_type]

/-- Witness for C7 at the unmapped `GTYPE` tag and at an interface
tag with an empty interface name. -/
theorem get_pytype_hint_total_fallback_witness :
    _get_pytype_hint gtype_type = gtype_type.get_tag_as_string ∧
    _get_pytype_hint anon_iface_type = anon_iface_type.get_tag_as_string :=
  ⟨(get_pytype_hint_total_fallback gtype_type).2.1 (by decide) (by decide),
   (get_pytype_hint_total_fallback anon_iface_type).2.2 (by decide) (by decide)⟩

/-- C6: the positional argument list is seeded with exactly one
implicit leading parameter — `"self"` for a virtual function, `"self"`
for a plain function with `is_method`, `"cls"` for a plain function
with `is_constructor` but not `is_method`, and nothing otherwise — and
the rendered in-argument list starts with that seed. -/
theorem implicit_leading_parameter (info : GICallableInfo) :
    (∃ rest, in_args_strs info = seed_in_args_strs info ++ rest) ∧
    (info.kind = CallableKind.VFuncInfo → seed_in_args_strs info = ["self"]) ∧
    (info.kind = CallableKind.FunctionInfo → info.is_method = true →
      seed_in_args_strs info = ["self"]) ∧
    (info.kind = CallableKind.FunctionInfo → info.is_method = false →
      info.is_constructor = true → seed_in_args_strs info = ["cls"]) ∧
    (info.kind = CallableKind.FunctionInfo → info.is_method = false →
      info.is_constructor = false → seed_in_args_strs info = []) ∧
    (info.kind = CallableKind.OtherInfo → seed_in_args_strs info = []) := by
  refine ⟨⟨_, rfl⟩, fun h => ?_, fun h h1 => ?_, fun h h1 h2 => ?_,
    fun h h1 h2 => ?_, fun h => ?_⟩ <;>
    simp [seed_in_args_strs, h, *]

/-- Witness for C6: a plain method seeds `"self"`, a virtual function
seeds `"self"`. -/
theorem implicit_leading_parameter_witness :
    seed_in_args_strs meth_info = ["self"] :=
  (implicit_leading_parameter meth_info).2.2.1 rfl rfl

/-- C5: `split_function_info_args` keeps the original relative order
in each component (both are sublists of the argument sequence), the
first component holds exactly the arguments with direction IN or
INOUT, the second exactly those with direction OUT or INOUT, and every
INOUT argument appears in both. -/
theorem split_function_info_args_partition (info : GICallableInfo) :
    List.Sublist (split_function_info_args info).1 info.get_arguments ∧
    List.Sublist (split_function_info_args info).2 info.get_arguments ∧
    (∀ arg ∈ (split_function_info_args info).1,
      arg.get_direction = Direction.IN ∨ arg.get_direction = Direction.INOUT) ∧
    (∀ arg ∈ (split_function_info_args info).2,
      arg.get_direction = Direction.OUT ∨ arg.get_direction = Direction.INOUT) ∧
    (∀ arg ∈ info.get_arguments,
      (arg.get_direction = Direction.IN ∨ arg.get_direction = Direction.INOUT) →
        arg ∈ (split_function_info_args info).1) ∧
    (∀ arg ∈ info.get_arguments,
      (arg.get_direction = Direction.OUT ∨ arg.get_direction = Direction.INOUT) →
        arg ∈ (split_function_info_args info).2) ∧
    (∀ arg ∈ info.get_arguments, arg.get_direction = Direction.INOUT →
        arg ∈ (split_function_info_args info).1 ∧
        arg ∈ (split_function_info_args info).2) := by
  refine ⟨List.filter_sublist _, List.filter_sublist _, ?_, ?_, ?_, ?_, ?_⟩ <;>
    intro arg hmem <;>
    simp only [split_function_info_args, List.mem_filter, decide_eq_true_eq] at * <;>
    tauto

/-- Witness for C5 at a callable with one INOUT argument: the argument
lands in both lists. -/
theorem split_function_info_args_partition_witness :
    io_arg ∈ (split_function_info_args inout_info).1 ∧
    io_arg ∈ (split_function_info_args inout_info).2 :=
  (split_function_info_args_partition inout_info).2.2.2.2.2.2 io_arg
    (by decide) (by decide)

/-- C10: when every argument's direction is IN, OUT or INOUT, each
argument occurrence lands in at least one of the two lists; each
occurrence contributes at most one occurrence to each list (the count
in each list never exceeds the count in the argument sequence); and an
argument with any other direction value appears in neither list. -/
theorem split_function_info_args_coverage (info : GICallableInfo)
    (hall : ∀ arg ∈ info.get_arguments,
      arg.get_direction = Direction.IN ∨ arg.get_direction = Direction.OUT ∨
        arg.get_direction = Direction.INOUT) :
    (∀ arg ∈ info.get_arguments,
      arg ∈ (split_function_info_args info).1 ∨
      arg ∈ (split_function_info_args info).2) ∧
    (∀ arg : GIArg,
      (split_function_info_args info).1.count arg ≤ info.get_arguments.count arg ∧
      (split_function_info_args info).2.count arg ≤ info.get_arguments.count arg) ∧
    (∀ arg : GIArg, arg.get_direction = Direction.OTHER →
      arg ∉ (split_function_info_args info).1 ∧
      arg ∉ (split_function_info_args info).2) := by
  refine ⟨?_, ?_, ?_⟩
  · intro arg hmem
    rcases hall arg hmem with h | h | h <;>
      simp [split_function_info_args, List.mem_filter, hmem, h]
  · intro arg
    exact ⟨(List.filter_sublist _).count_le arg, (List.filter_sublist _).count_le arg⟩
  · intro arg h
    constructor <;> intro hmem <;>
      simp [split_function_info_args, List.mem_filter, h] at hmem

/-- Witness for C10 at `foo_info` (single IN argument): the argument
is covered by the two lists. -/
theorem split_function_info_args_coverage_witness :
    x_arg ∈ (split_function_info_args foo_info).1 ∨
    x_arg ∈ (split_function_info_args foo_info).2 :=
  (split_function_info_args_coverage foo_info (by decide)).1 x_arg (by decide)

/-- C3: a non-suppressed in-argument at position `i` renders as its
name, then `:TypeHint` unless the resolved hint is exactly `"void"`,
then `=None` when it may be null or `i` is a closure-companion index
(so a user-data argument gets `=None` even when not nullable), else
`=<optional>` when optional, else no marker; and `user_data_indices`
is exactly the closure-companion indices of the in-list arguments. -/
theorem in_arg_rendering (in_args : List GIArg) (i : Nat) (arg : GIArg) :
    format_in_arg (user_data_indices in_args) i arg =
      arg.get_name ++
        (if _get_pytype_hint arg.get_type = "void" then ""
         else ":" ++ _get_pytype_hint arg.get_type) ++
        (if arg.may_be_null ∨ (i : Int) ∈ user_data_indices in_args then "=None"
         else if arg.is_optional then "=<optional>" else "") ∧
    (∀ x : Int, x ∈ user_data_indices in_args ↔
      ∃ a ∈ in_args, a.get_closure = x) := by
  constructor
  · by_cases hv : _get_pytype_hint arg.get_type = "void" <;>
      by_cases hn : (arg.may_be_null : Prop) ∨ (i : Int) ∈ user_data_indices in_args <;>
        by_cases ho : (arg.is_optional : Prop) <;>
          simp [format_in_arg, hv, hn, ho, String.append_assoc]
  · intro x
    simp [user_data_indices, List.mem_map]

/-- C1: the default formatter returns
`"name(in_args) -> out_args"` when the derived out-list is non-empty
and `"name(in_args)"` when it is empty, where the in-part is the
rendered in-argument strings joined with `", "` and the out-part is
`name:TypeHint` for each out argument in order (hint always included)
joined with `", "`. -/
theorem signature_arrow_shape (info : GICallableInfo) :
    ((split_function_info_args info).2 ≠ [] →
      _generate_callable_info_function_signature info =
        info.get_name ++ "(" ++ String.intercalate ", " (in_args_strs info) ++
          ") -> " ++
          String.intercalate ", "
            ((split_function_info_args info).2.map
              (fun arg => arg.get_name ++ ":" ++ _get_pytype_hint arg.get_type))) ∧
    ((split_function_info_args info).2 = [] →
      _generate_callable_info_function_signature info =
        info.get_name ++ "(" ++ String.intercalate ", " (in_args_strs info) ++ ")") := by
  refine ⟨fun h => ?_, fun h => ?_⟩
  · simp [_generate_callable_info_function_signature, h]
    rfl
  · simp [_generate_callable_info_function_signature, h]

/-- Witness for C1 at a callable with one OUT argument and at one with
none. -/
theorem signature_arrow_shape_witness :
    _generate_callable_info_function_signature outonly_info =
      outonly_info.get_name ++ "(" ++
        String.intercalate ", " (in_args_strs outonly_info) ++ ") -> " ++
        String.intercalate ", "
          ((split_function_info_args outonly_info).2.map
            (fun arg => arg.get_name ++ ":" ++ _get_pytype_hint arg.get_type)) ∧
    _generate_callable_info_function_signature foo_info =
      foo_info.get_name ++ "(" ++ String.intercalate ", " (in_args_strs foo_info) ++ ")" :=
  ⟨(signature_arrow_shape outonly_info).1 (by decide),
   (signature_arrow_shape foo_info).2 (by decide)⟩

/-- A `filterMap` whose function skips exactly the elements satisfying
`c` is the `map` over the `filter` of the complement. -/
theorem filterMap_skip_eq_filter_map {α β : Type} (c : α → Prop) [DecidablePred c]
    (f : α → β) (l : List α) :
    l.filterMap (fun a => if c a then none else some (f a)) =
      (l.filter (fun a => !(decide (c a)))).map f := by
  induction l with
  | nil => rfl
  | cons a t ih => by_cases h : c a <;> simp [h, ih]

/-- C2: `ignore_indices` is exactly the destroy-notify indices and the
array-length indices drawn from the in-list arguments (computed over
the whole in-list before any argument is formatted), and the rendered
positional parameter list is the seed followed by the formatting of
precisely those enumerated in-arguments whose 0-based position is not
in `ignore_indices` — so a position in the set is entirely absent even
when the argument referencing it occurs later in the sequence. -/
theorem ignored_in_args_absent (info : GICallableInfo) :
    (∀ x : Int, x ∈ ignore_indices (split_function_info_args info).1 ↔
      ((∃ arg ∈ (split_function_info_args info).1, arg.get_destroy = x) ∨
       (∃ arg ∈ (split_function_info_args info).1,
          arg.get_type.get_array_length = x))) ∧
    in_args_strs info =
      seed_in_args_strs info ++
        ((split_function_info_args info).1.enum.filter
            (fun p => !(decide ((p.1 : Int) ∈
              ignore_indices (split_function_info_args info).1)))).map
          (fun p => format_in_arg
            (user_data_indices (split_function_info_args info).1) p.1 p.2) := by
  constructor
  · intro x
    simp [ignore_indices, List.mem_append, List.mem_map]
  · exact congrArg (seed_in_args_strs info ++ ·)
      (filterMap_skip_eq_filter_map
        (fun p : Nat × GIArg =>
          (p.1 : Int) ∈ ignore_indices (split_function_info_args info).1)
        (fun p => format_in_arg
          (user_data_indices (split_function_info_args info).1) p.1 p.2)
        (split_function_info_args info).1.enum)

/-- `_get_pytype_hint` reads only the tag, the raw tag string and the
nested interface descriptor of a type. -/
theorem hint_fields_congr (t u : GIType) (h : hint_fields_eq t u) :
    _get_pytype_hint t = _get_pytype_hint u := by
  obtain ⟨h1, h2, h3⟩ := h
  simp only [_get_pytype_hint]
  rw [h1, h2, h3]

/-- Related argument lists produce the same in-list: a related pair
shares its direction, and a pair whose direction admits it into the
in-list is fully equal. -/
theorem forall2_filter_in_eq {l l' : List GIArg}
    (h : List.Forall₂ out_companion_variant l l') :
    l.filter (fun arg => decide (arg.get_direction = Direction.IN ∨
        arg.get_direction = Direction.INOUT)) =
      l'.filter (fun arg => decide (arg.get_direction = Direction.IN ∨
        arg.get_direction = Direction.INOUT)) := by
  induction h with
  | nil => rfl
  | cons h1 h2 ih =>
    rename_i a b t t'
    obtain ⟨-, hdir, -, -, -, heq⟩ := h1
    by_cases hd : a.get_direction = Direction.IN ∨ a.get_direction = Direction.INOUT
    · have hab : a = b := heq (by rcases hd with h | h <;> simp [h])
      subst hab
      simpa [List.filter_cons, hd] using ih
    · have hd' : ¬(b.get_direction = Direction.IN ∨
          b.get_direction = Direction.INOUT) := by
        rw [← hdir]; exact hd
      simpa [List.filter_cons, hd, hd'] using ih

/-- The out-list filter preserves the relation between related
argument lists. -/
theorem forall2_filter_out_rel {l l' : List GIArg}
    (h : List.Forall₂ out_companion_variant l l') :
    List.Forall₂ out_companion_variant
      (l.filter (fun arg => decide (arg.get_direction = Direction.OUT ∨
          arg.get_direction = Direction.INOUT)))
      (l'.filter (fun arg => decide (arg.get_direction = Direction.OUT ∨
          arg.get_direction = Direction.INOUT))) := by
  induction h with
  | nil => exact List.Forall₂.nil
  | cons h1 h2 ih =>
    rename_i a b t t'
    have hdir : a.get_direction = b.get_direction := h1.2.1
    by_cases hd : a.get_direction = Direction.OUT ∨ a.get_direction = Direction.INOUT
    · have hd' : b.get_direction = Direction.OUT ∨
          b.get_direction = Direction.INOUT := by
        rw [← hdir]; exact hd
      simpa [List.filter_cons, hd, hd'] using List.Forall₂.cons h1 ih
    · have hd' : ¬(b.get_direction = Direction.OUT ∨
          b.get_direction = Direction.INOUT) := by
        rw [← hdir]; exact hd
      simpa [List.filter_cons, hd, hd'] using ih

/-- Related argument lists render the same out-argument strings. -/
theorem forall2_map_format_out {l l' : List GIArg}
    (h : List.Forall₂ out_companion_variant l l') :
    l.map format_out_arg = l'.map format_out_arg := by
  induction h with
  | nil => rfl
  | cons h1 h2 ih =>
    rename_i a b t t'
    obtain ⟨hn, -, -, -, hh, -⟩ := h1
    simp [format_out_arg, hn, hint_fields_congr _ _ hh, ih]

/-- The seed depends only on the kind and the two predicates. -/
theorem seed_in_args_strs_congr (info info' : GICallableInfo)
    (hkind : info.kind = info'.kind)
    (hmeth : info.is_method = info'.is_method)
    (hctor : info.is_constructor = info'.is_constructor) :
    seed_in_args_strs info = seed_in_args_strs info' := by
  simp only [seed_in_args_strs, hkind, hmeth, hctor]

/-- C9: only in-list arguments feed `ignore_indices` and
`user_data_indices`: two descriptors that agree everywhere except in
the destroy-notify, closure, or array-length companion indices of
OUT-only arguments produce the same signature string, and the
rendered out-argument list never drops an out argument (its length
equals the out-list's length). -/
theorem out_companion_indices_no_effect (info info' : GICallableInfo)
    (hname : info.get_name = info'.get_name)
    (hkind : info.kind = info'.kind)
    (hmeth : info.is_method = info'.is_method)
    (hctor : info.is_constructor = info'.is_constructor)
    (hargs : List.Forall₂ out_companion_variant info.get_arguments
      info'.get_arguments) :
    _generate_callable_info_function_signature info =
      _generate_callable_info_function_signature info' ∧
    ((split_function_info_args info).2.map format_out_arg).length =
      (split_function_info_args info).2.length := by
  have hin : (split_function_info_args info).1 = (split_function_info_args info').1 :=
    forall2_filter_in_eq hargs
  have hout : List.Forall₂ out_companion_variant (split_function_info_args info).2
      (split_function_info_args info').2 := forall2_filter_out_rel hargs
  have houtmap : (split_function_info_args info).2.map format_out_arg =
      (split_function_info_args info').2.map format_out_arg :=
    forall2_map_format_out hout
  have hnil : ((split_function_info_args info).2 = []) ↔
      ((split_function_info_args info').2 = []) := by
    rw [← List.length_eq_zero, ← List.length_eq_zero, hout.length_eq]
  have hinstrs : in_args_strs info = in_args_strs info' := by
    unfold in_args_strs
    rw [hin, seed_in_args_strs_congr info info' hkind hmeth hctor]
  refine ⟨?_, by simp⟩
  by_cases he : (split_function_info_args info).2 = []
  · have he' : (split_function_info_args info').2 = [] := hnil.mp he
    simp [_generate_callable_info_function_signature, he, he', hname, hinstrs]
  · have he' : (split_function_info_args info').2 ≠ [] := fun hc => he (hnil.mpr hc)
    simp [_generate_callable_info_function_signature, he, he', hname, hinstrs, houtmap]

/-- Witness for C9: `outonly_info` and `outonly_info2` differ only in
the destroy-notify companion index of the OUT-only argument `result`
and render identically. -/
theorem out_companion_indices_no_effect_witness :
    _generate_callable_info_function_signature outonly_info =
      _generate_callable_info_function_signature outonly_info2 ∧
    ((split_function_info_args outonly_info).2.map format_out_arg).length =
      (split_function_info_args outonly_info).2.length :=
  out_companion_indices_no_effect outonly_info outonly_info2 rfl rfl rfl rfl
    (List.Forall₂.cons
      (show out_companion_variant result_arg result_arg2 from
        ⟨rfl, rfl, rfl, rfl, ⟨rfl, rfl, rfl⟩, fun h => absurd rfl h⟩)
      List.Forall₂.nil)

end GiDocstring
